import Mathlib

/-!
Shallow embedding of the Hephaestus management scripts
(`scripts/management/check_workflow_status.py`,
`scripts/management/restart_stalled_workflow.py`,
`scripts/management/restart_stalled_agents.py`,
`scripts/management/cleanup_stale_worktrees.py`)
together with theorems about the completion rollup, the staleness
detector and the two recovery flows.

Statuses are kept as strings, exactly as the Python code compares them.
External effects (database commit outcome, queue admission, agent
termination, filesystem and version-control probes) are modelled as
explicit parameters, so the scripts become pure functions on an explicit
store state.
-/

namespace Hephaestus

/-- A `Task` row: the fields the management scripts read or write
(`status`, `phase_id`, `failure_reason`, `assigned_agent_id`,
`started_at`, `completed_at`). -/
structure Task where
  id : String
  phase_id : String
  status : String
  failure_reason : Option String := none
  assigned_agent_id : Option String := none
  started_at : Option Nat := none
  completed_at : Option Nat := none
deriving Repr, DecidableEq

/-- A `Phase` row: identity, parent workflow, `order` and display name. -/
structure Phase where
  id : String
  workflow_id : String
  order : Nat
  name : String
deriving Repr, DecidableEq

/-- A `Workflow` row: identity, display name and status string. -/
structure Workflow where
  id : String
  name : String
  status : String
deriving Repr, DecidableEq

/-- A `WorkflowResult` row: parent workflow, status string and summary. -/
structure WorkflowResult where
  id : String
  workflow_id : String
  status : String
  summary : Option String := none
deriving Repr, DecidableEq

/-- An `Agent` row: identity, status string, current task reference. -/
structure Agent where
  id : String
  status : String
  current_task_id : Option String := none
deriving Repr, DecidableEq

/-- An `AgentWorktree` row: owning agent, filesystem path, branch name
and merge status. -/
structure AgentWorktree where
  agent_id : String
  worktree_path : String
  branch_name : String
  merge_status : String
deriving Repr, DecidableEq

/-- The persisted store the scripts query: one list per table. -/
structure Store where
  workflows : List Workflow := []
  phases : List Phase := []
  tasks : List Task := []
  results : List WorkflowResult := []
deriving Repr, DecidableEq

/-! ### check_workflow_status.py -/

/-- One entry of the `phase_statuses` list built by
`check_workflow_completion_via_db` (lines 186-195). -/
structure PhaseStatus where
  phase_id : String
  phase_order : Nat
  phase_name : String
  total_tasks : Nat
  completed_tasks : Nat
  active_tasks : Nat
  pending_tasks : Nat
  complete : Bool
deriving Repr, DecidableEq

/-- The `progress` dictionary (lines 93-98 and 219-225): aggregate task
counts plus the completion percentage, modelled over the rationals. -/
structure Progress where
  total_tasks : Nat
  completed_tasks : Nat
  active_tasks : Nat
  pending_tasks : Nat
  completion_percentage : ℚ
deriving Repr, DecidableEq

/-- The dictionary returned by either checker: completion verdict,
diagnostic reason, and the optional phase breakdown and progress. -/
structure CheckResult where
  complete : Bool
  reason : String
  phases : Option (List PhaseStatus) := none
  progress : Option Progress := none
deriving Repr, DecidableEq

/-- `session.query(Task).filter_by(phase_id=...).count()` (line 166). -/
def countTotal (tasks : List Task) (pid : String) : Nat :=
  (tasks.filter (fun t => t.phase_id == pid)).length

/-- `session.query(Task).filter_by(phase_id=..., status="done").count()`
(lines 167-169). -/
def countDone (tasks : List Task) (pid : String) : Nat :=
  (tasks.filter (fun t => t.phase_id == pid && t.status == "done")).length

/-- Count of tasks of the phase with status in `assigned`/`in_progress`
(lines 170-172). -/
def countActive (tasks : List Task) (pid : String) : Nat :=
  (tasks.filter (fun t =>
    t.phase_id == pid && (t.status == "assigned" || t.status == "in_progress"))).length

/-- `session.query(Task).filter_by(phase_id=..., status="pending").count()`
(lines 173-175). -/
def countPending (tasks : List Task) (pid : String) : Nat :=
  (tasks.filter (fun t => t.phase_id == pid && t.status == "pending")).length

/-- The per-phase record built in the loop of
`check_workflow_completion_via_db` (lines 165-195): the four counts and
the verdict `completed > 0 and active == 0 and pending == 0`. -/
def phaseStatusOf (tasks : List Task) (p : Phase) : PhaseStatus :=
  let total_tasks := countTotal tasks p.id
  let completed_tasks := countDone tasks p.id
  let active_tasks := countActive tasks p.id
  let pending_tasks := countPending tasks p.id
  { phase_id := p.id
    phase_order := p.order
    phase_name := p.name
    total_tasks := total_tasks
    completed_tasks := completed_tasks
    active_tasks := active_tasks
    pending_tasks := pending_tasks
    complete := decide (completed_tasks > 0) && decide (active_tasks = 0)
      && decide (pending_tasks = 0) }

/-- Workflow lookup (lines 117-122): by id when one is given, otherwise
the first workflow whose status is in `["active", "paused"]`. -/
def findWorkflow (workflows : List Workflow) (workflow_id : Option String) :
    Option Workflow :=
  match workflow_id with
  | some wid => workflows.find? (fun w => w.id == wid)
  | none => workflows.find? (fun w => w.status == "active" || w.status == "paused")

/-- `session.query(WorkflowResult).filter_by(workflow_id=..., status="validated").first()`
(lines 142-145). -/
def findValidatedResult (results : List WorkflowResult) (wid : String) :
    Option WorkflowResult :=
  results.find? (fun r => r.workflow_id == wid && r.status == "validated")

/-- Insert a phase into a list sorted by `order` (models the effect of
the SQL `ORDER BY` used at line 160). -/
def insertByOrder (p : Phase) : List Phase → List Phase
  | [] => [p]
  | q :: qs => if p.order ≤ q.order then p :: q :: qs else q :: insertByOrder p qs

/-- Stable sort of phases by `order` (line 160's `order_by(Phase.order)`). -/
def sortByOrder : List Phase → List Phase
  | [] => []
  | p :: ps => insertByOrder p (sortByOrder ps)

/-- `session.query(Phase).filter_by(workflow_id=...).order_by(Phase.order).all()`
(lines 158-160). -/
def phasesOf (phases : List Phase) (wid : String) : List Phase :=
  sortByOrder (phases.filter (fun p => p.workflow_id == wid))

/-- The aggregate progress dictionary built from a phase-status list
(lines 207-225): sums of the four counts and
`(completed / total * 100) if total > 0 else 0`. -/
def progressOf (phase_statuses : List PhaseStatus) : Progress :=
  let total_tasks := (phase_statuses.map (·.total_tasks)).sum
  let completed_tasks := (phase_statuses.map (·.completed_tasks)).sum
  let active_tasks := (phase_statuses.map (·.active_tasks)).sum
  let pending_tasks := (phase_statuses.map (·.pending_tasks)).sum
  { total_tasks := total_tasks
    completed_tasks := completed_tasks
    active_tasks := active_tasks
    pending_tasks := pending_tasks
    completion_percentage :=
      if total_tasks > 0 then (completed_tasks : ℚ) / (total_tasks : ℚ) * 100 else 0 }

/-- `check_workflow_completion_via_db` (lines 110-229), with the store
passed explicitly in place of the database session. -/
def check_workflow_completion_via_db (store : Store)
    (workflow_id : Option String) : CheckResult :=
  match findWorkflow store.workflows workflow_id with
  | none =>
      { complete := true, reason := "No active workflow found" }
  | some workflow =>
      if workflow.status == "completed" then
        { complete := true, reason := "Workflow marked as completed" }
      else
        match findValidatedResult store.results workflow.id with
        | some _ =>
            { complete := true, reason := "Workflow has validated result" }
        | none =>
            let phases := phasesOf store.phases workflow.id
            let phase_statuses := phases.map (phaseStatusOf store.tasks)
            let all_phases_complete := phase_statuses.all (·.complete)
            if all_phases_complete && decide (phases.length > 0) then
              { complete := true
                reason := "All phases complete (all tasks done)"
                phases := some phase_statuses }
            else
              { complete := false
                reason := "Workflow still in progress"
                phases := some phase_statuses
                progress := some (progressOf phase_statuses) }

/-- One phase entry of the `/api/workflow` response: the four task
counts the API checker reads with `.get(..., 0)` (lines 69-72, 84-87). -/
structure ApiPhase where
  total_tasks : Nat
  completed_tasks : Nat
  active_tasks : Nat
  pending_tasks : Nat
deriving Repr, DecidableEq

/-- The `/api/workflow` response body: workflow status string and the
phase list. -/
structure WorkflowInfo where
  status : String
  phases : List ApiPhase
deriving Repr, DecidableEq

/-- The per-phase completion test inside the `all(...)` of
`check_workflow_completion_via_api` (lines 69-74). -/
def apiPhaseComplete (p : ApiPhase) : Bool :=
  decide (p.completed_tasks > 0) && decide (p.active_tasks = 0)
    && decide (p.pending_tasks = 0)

/-- The aggregate progress dictionary of the API checker (lines 84-98). -/
def apiProgressOf (phases : List ApiPhase) : Progress :=
  let total_tasks := (phases.map (·.total_tasks)).sum
  let completed_tasks := (phases.map (·.completed_tasks)).sum
  let active_tasks := (phases.map (·.active_tasks)).sum
  let pending_tasks := (phases.map (·.pending_tasks)).sum
  { total_tasks := total_tasks
    completed_tasks := completed_tasks
    active_tasks := active_tasks
    pending_tasks := pending_tasks
    completion_percentage :=
      if total_tasks > 0 then (completed_tasks : ℚ) / (total_tasks : ℚ) * 100 else 0 }

/-- `check_workflow_completion_via_api` (lines 33-107) on a successfully
fetched response body; the HTTP fetch itself is external and its failure
branch returns a non-complete error result not modelled here. -/
def check_workflow_completion_via_api (info : WorkflowInfo) : CheckResult :=
  if info.status == "inactive" then
    { complete := true, reason := "No active workflow" }
  else if info.status == "completed" then
    { complete := true, reason := "Workflow marked as completed" }
  else
    let phases := info.phases
    let all_phases_complete := phases.all apiPhaseComplete
    if all_phases_complete && decide (phases.length > 0) then
      { complete := true, reason := "All phases complete (all tasks done)" }
    else
      { complete := false
        reason := "Workflow still in progress"
        progress := some (apiProgressOf phases) }

/-- The `results` dictionary assembled by `main` (lines 244-250): one
entry per requested method, keyed by method name. -/
def mainResults (info : WorkflowInfo) (store : Store)
    (workflow_id : Option String) (method : String) :
    List (String × CheckResult) :=
  (if method == "api" || method == "both" then
    [("api", check_workflow_completion_via_api info)]
  else []) ++
  (if method == "db" || method == "both" then
    [("db", check_workflow_completion_via_db store workflow_id)]
  else [])

/-! ### restart_stalled_workflow.py -/

/-- The reset applied to one failed task (lines 50-55): status becomes
`queued` and the failure bookkeeping fields are cleared. -/
def resetTask (t : Task) : Task :=
  { t with
    status := "queued"
    failure_reason := none
    assigned_agent_id := none
    started_at := none
    completed_at := none }

/-- Outcome of one `queue_service.enqueue_task(task_id)` call
(lines 63-68), reported per task. -/
structure EnqueueOutcome where
  task_id : String
  ok : Bool
deriving Repr, DecidableEq

/-- `restart_failed_tasks` (lines 24-79) as a function on the task
table. `commitOk` is the outcome of the single `session.commit()` at
line 58: when it fails the surrounding `except` handler rolls the
session back, so the store is unchanged and no enqueue is attempted;
when it succeeds every selected task is persisted in its reset form and
each is then submitted to the queue, with the external admission outcome
given by the `enq` oracle and per-task failures merely reported. -/
def restart_failed_tasks (commitOk : Bool) (enq : String → Bool)
    (tasks : List Task) : List Task × List EnqueueOutcome :=
  let failed_tasks := tasks.filter (fun t => t.status == "failed")
  if failed_tasks.isEmpty then
    (tasks, [])
  else
    let task_ids := failed_tasks.map (·.id)
    if commitOk then
      let tasks' := tasks.map (fun t => if t.status == "failed" then resetTask t else t)
      (tasks', task_ids.map (fun tid => { task_id := tid, ok := enq tid }))
    else
      (tasks, [])

/-- `check_blocked_tasks` (lines 82-109): a read-only report of the
blocked tasks; no mutation. -/
def check_blocked_tasks (tasks : List Task) : List Task :=
  tasks.filter (fun t => t.status == "blocked")

/-! ### cleanup_stale_worktrees.py -/

/-- The staleness test of lines 45-48: evaluated from the two external
probes `os.path.exists` and the porcelain worktree listing, a record is
stale when either probe comes back false. -/
def isStale (onDisk inGitList : String → Bool) (wt : AgentWorktree) : Bool :=
  !(onDisk wt.worktree_path) || !(inGitList wt.worktree_path)

/-- One entry of the `stale_worktrees` list (lines 53-58). -/
structure StaleItem where
  worktree : AgentWorktree
  exists_on_disk : Bool
  in_git_list : Bool
  agent_status : String
deriving Repr, DecidableEq

/-- The agent-status annotation of lines 50-51:
`agent.status if agent else "NOT_FOUND"`. -/
def agentStatusOf (agents : List Agent) (aid : String) : String :=
  match agents.find? (fun a => a.id == aid) with
  | some a => a.status
  | none => "NOT_FOUND"

/-- The stale-worktree collection loop of lines 41-58: enumerate the
records with `merge_status == "active"` and keep those failing either
external probe, annotated with both probe values and the owning agent's
status. -/
def staleWorktrees (onDisk inGitList : String → Bool) (agents : List Agent)
    (worktrees : List AgentWorktree) : List StaleItem :=
  (worktrees.filter (fun wt => wt.merge_status == "active")).filterMap (fun wt =>
    let exists_on_disk := onDisk wt.worktree_path
    let in_git_list := inGitList wt.worktree_path
    if !exists_on_disk || !in_git_list then
      some { worktree := wt
             exists_on_disk := exists_on_disk
             in_git_list := in_git_list
             agent_status := agentStatusOf agents wt.agent_id }
    else
      none)

/-- `cleanup_stale_worktrees` (lines 24-120) restricted to its effect on
the worktree table: in dry-run mode (and when nothing is stale) the
table is unchanged; in execute mode every stale record is marked
`cleaned` and the batch committed (line 88). The subsequent best-effort
branch deletions (lines 91-112) touch version control only, never the
table. Returns the new table and the stale report. -/
def cleanup_stale_worktrees (onDisk inGitList : String → Bool)
    (agents : List Agent) (dry_run : Bool)
    (worktrees : List AgentWorktree) : List AgentWorktree × List StaleItem :=
  let stale := staleWorktrees onDisk inGitList agents worktrees
  if stale.isEmpty then
    (worktrees, [])
  else if dry_run then
    (worktrees, stale)
  else
    (worktrees.map (fun wt =>
      if wt.merge_status == "active" && isStale onDisk inGitList wt then
        { wt with merge_status := "cleaned" }
      else wt), stale)

/-! ### restart_stalled_agents.py -/

/-- The agent filter of lines 23-25:
`Agent.status.in_(["working", "running", "stuck"])`. -/
def isStalledAgent (a : Agent) : Bool :=
  a.status == "working" || a.status == "running" || a.status == "stuck"

/-- The actions issued by one run of the flow: the agents termination
was requested for, and the task ids submitted for restart. -/
structure FlowBActions where
  terminated_agents : List String
  restarted_tasks : List String
deriving Repr, DecidableEq

/-- `restart_stalled_agents` (lines 16-102): select the agents with
status in `working`/`running`/`stuck`, collect their `current_task_id`
values before any termination call (lines 32-41), request termination
for each selected agent (lines 47-60), then — after the grace delay —
request a restart for each collected task id (lines 68-96).
`terminateEffect` models what the external control plane does to a
terminated agent's record; it is applied only to selected agents and
only after the task ids were collected. Per-call failures are reported
and never remove an item from either action list. -/
def restart_stalled_agents (terminateEffect : Agent → Agent)
    (agents : List Agent) : List Agent × FlowBActions :=
  let active_agents := agents.filter isStalledAgent
  let task_ids_to_restart := active_agents.filterMap (·.current_task_id)
  let agents' := agents.map (fun a => if isStalledAgent a then terminateEffect a else a)
  (agents',
   { terminated_agents := active_agents.map (·.id)
     restarted_tasks := task_ids_to_restart })

/-! ### The spec's three-signal workflow completion rule -/

/-- The workflow-completion rule exactly as the spec words it (three
signals joined by OR): workflow status `completed`, or a validated
WorkflowResult exists, or every phase is complete and at least one phase
exists. Stated over a found workflow's status, the validated-result
lookup and the phase rollup, for comparison against the two checkers. -/
def specWorkflowComplete (workflow_status : String)
    (has_validated_result : Bool) (phases_count : Nat)
    (all_phases_complete : Bool) : Bool :=
  workflow_status == "completed" || has_validated_result
    || (all_phases_complete && decide (phases_count > 0))

/-! ### Helper lemmas -/

/-- A filter by a conjunction never keeps more elements than the filter
by its first conjunct. -/
lemma length_filter_and_le (A B : Task → Bool) (l : List Task) :
    (l.filter fun t => A t && B t).length ≤ (l.filter A).length := by
  induction l with
  | nil => simp
  | cons t ts ih =>
      by_cases hA : A t
      all_goals by_cases hB : B t
      all_goals simp [List.filter_cons, hA, hB]
      all_goals omega

/-- In an empty phase the `done` count is bounded by the total count. -/
lemma countDone_le_countTotal (tasks : List Task) (pid : String) :
    countDone tasks pid ≤ countTotal tasks pid :=
  length_filter_and_le (fun t => t.phase_id == pid) (fun t => t.status == "done") tasks

/-- Membership in `insertByOrder` is membership in the inserted element
or the original list. -/
lemma mem_insertByOrder (p q : Phase) (l : List Phase) :
    q ∈ insertByOrder p l ↔ q = p ∨ q ∈ l := by
  induction l with
  | nil => simp [insertByOrder]
  | cons r rs ih =>
      by_cases h : p.order ≤ r.order
      all_goals simp [insertByOrder, h, ih]
      all_goals tauto

/-- The insertion sort used for `ORDER BY` preserves membership. -/
lemma mem_sortByOrder (p : Phase) (l : List Phase) :
    p ∈ sortByOrder l ↔ p ∈ l := by
  induction l with
  | nil => simp [sortByOrder]
  | cons q qs ih => simp [sortByOrder, mem_insertByOrder, ih]

/-- Membership in the phase list the database checker walks: exactly the
phases of the workflow. -/
lemma mem_phasesOf (phases : List Phase) (wid : String) (p : Phase) :
    p ∈ phasesOf phases wid ↔ p ∈ phases ∧ p.workflow_id = wid := by
  simp [phasesOf, mem_sortByOrder, List.mem_filter]

/-- Characterization of the database checker once a workflow was found:
the remaining branches of `check_workflow_completion_via_db`. -/
lemma check_db_found (store : Store) (wid : Option String) (w : Workflow)
    (hw : findWorkflow store.workflows wid = some w) :
    check_workflow_completion_via_db store wid =
      (if w.status == "completed" then
        { complete := true, reason := "Workflow marked as completed" }
      else
        match findValidatedResult store.results w.id with
        | some _ =>
            { complete := true, reason := "Workflow has validated result" }
        | none =>
            let phases := phasesOf store.phases w.id
            let phase_statuses := phases.map (phaseStatusOf store.tasks)
            if phase_statuses.all (·.complete) && decide (phases.length > 0) then
              { complete := true
                reason := "All phases complete (all tasks done)"
                phases := some phase_statuses }
            else
              { complete := false
                reason := "Workflow still in progress"
                phases := some phase_statuses
                progress := some (progressOf phase_statuses) }) := by
  unfold check_workflow_completion_via_db
  rw [hw]

/-- A found validated result means one exists in the results table. -/
lemma findValidatedResult_some_iff (results : List WorkflowResult) (wid : String) :
    (findValidatedResult results wid).isSome = true ↔
      ∃ r ∈ results, r.workflow_id = wid ∧ r.status = "validated" := by
  simp [findValidatedResult, List.find?_isSome]

/-! ### Theorems about the claims -/

/-- C1: for every phase, the phase-completion verdict — of the
store-backed evaluation (`phaseStatusOf`, used by
`check_workflow_completion_via_db`) and of the API-backed evaluation
(`apiPhaseComplete`, used by `check_workflow_completion_via_api`) — is
true exactly when the `done` count is positive and the
`assigned`/`in_progress` count and the `pending` count are both zero. -/
theorem C1_phase_completion_verdict (tasks : List Task) (p : Phase) (ap : ApiPhase) :
    ((phaseStatusOf tasks p).complete = true ↔
      0 < countDone tasks p.id ∧ countActive tasks p.id = 0 ∧
        countPending tasks p.id = 0) ∧
    (apiPhaseComplete ap = true ↔
      0 < ap.completed_tasks ∧ ap.active_tasks = 0 ∧ ap.pending_tasks = 0) := by
  constructor <;>
    simp [phaseStatusOf, apiPhaseComplete, Bool.and_eq_true, decide_eq_true_iff,
      and_assoc]

/-- Witness for C1 at a concrete phase with one `done` task. -/
theorem C1_phase_completion_verdict_witness :
    (phaseStatusOf [⟨"t1", "p", "done", none, none, none, none⟩]
        ⟨"p", "w", 0, "phase"⟩).complete = true :=
  (C1_phase_completion_verdict [⟨"t1", "p", "done", none, none, none, none⟩]
      ⟨"p", "w", 0, "phase"⟩ ⟨1, 1, 0, 0⟩).1.mpr (by decide)

/-- C3: a phase whose total task count is zero is never reported
complete, because its `done` count is forced to zero and the
`completed > 0` conjunct of the verdict fails. -/
theorem C3_empty_phase_never_complete (tasks : List Task) (p : Phase)
    (h : countTotal tasks p.id = 0) :
    (phaseStatusOf tasks p).complete = false := by
  have hd : countDone tasks p.id = 0 :=
    Nat.le_antisymm (h ▸ countDone_le_countTotal tasks p.id) (Nat.zero_le _)
  simp [phaseStatusOf, hd]

/-- Witness for C3: the empty task table gives a zero total count and a
non-complete phase. -/
theorem C3_empty_phase_never_complete_witness :
    countTotal [] "p" = 0 ∧
      (phaseStatusOf [] ⟨"p", "w", 0, "phase"⟩).complete = false :=
  ⟨by decide, C3_empty_phase_never_complete [] ⟨"p", "w", 0, "phase"⟩ (by decide)⟩

/-- C9: whenever either checker returns an aggregate progress snapshot,
its completion percentage is `completed / total * 100` for a positive
total and `0` for a zero total; the division is guarded, so no division
by zero occurs. -/
theorem C9_completion_percentage (store : Store) (wid : Option String)
    (info : WorkflowInfo) :
    (∀ prog, (check_workflow_completion_via_db store wid).progress = some prog →
      prog.completion_percentage =
        if prog.total_tasks = 0 then 0
        else (prog.completed_tasks : ℚ) / (prog.total_tasks : ℚ) * 100) ∧
    (∀ prog, (check_workflow_completion_via_api info).progress = some prog →
      prog.completion_percentage =
        if prog.total_tasks = 0 then 0
        else (prog.completed_tasks : ℚ) / (prog.total_tasks : ℚ) * 100) := by
  have hof : ∀ ps : List PhaseStatus,
      (progressOf ps).completion_percentage =
        if (progressOf ps).total_tasks = 0 then 0
        else ((progressOf ps).completed_tasks : ℚ) / ((progressOf ps).total_tasks : ℚ) * 100 := by
    intro ps
    simp only [progressOf]
    rcases Nat.eq_zero_or_pos ((ps.map (·.total_tasks)).sum) with h | h
    · simp [h]
    · simp [h, Nat.pos_iff_ne_zero.mp h]
  have hof2 : ∀ ps : List ApiPhase,
      (apiProgressOf ps).completion_percentage =
        if (apiProgressOf ps).total_tasks = 0 then 0
        else ((apiProgressOf ps).completed_tasks : ℚ) / ((apiProgressOf ps).total_tasks : ℚ) * 100 := by
    intro ps
    simp only [apiProgressOf]
    rcases Nat.eq_zero_or_pos ((ps.map (·.total_tasks)).sum) with h | h
    · simp [h]
    · simp [h, Nat.pos_iff_ne_zero.mp h]
  constructor
  · intro prog hprog
    unfold check_workflow_completion_via_db at hprog
    split at hprog
    · simp at hprog
    · split at hprog
      · simp at hprog
      · split at hprog
        · simp at hprog
        · simp only [] at hprog
          split at hprog
          · simp at hprog
          · simp only [Option.some.injEq] at hprog
            subst hprog
            exact hof _
  · intro prog hprog
    unfold check_workflow_completion_via_api at hprog
    split at hprog
    · simp at hprog
    · split at hprog
      · simp at hprog
      · simp only [] at hprog
        split at hprog
        · simp at hprog
        · simp only [Option.some.injEq] at hprog
          subst hprog
          exact hof2 _

/-- Witness for C9: a store holding one active workflow without phases
yields a progress snapshot with a zero total and a zero percentage. -/
theorem C9_completion_percentage_witness :
    (check_workflow_completion_via_db
        { workflows := [⟨"w1", "wf", "active"⟩] } none).progress =
      some { total_tasks := 0, completed_tasks := 0, active_tasks := 0,
             pending_tasks := 0, completion_percentage := 0 } ∧
    ∀ prog, (check_workflow_completion_via_db
        { workflows := [⟨"w1", "wf", "active"⟩] } none).progress = some prog →
      prog.completion_percentage =
        if prog.total_tasks = 0 then 0
        else (prog.completed_tasks : ℚ) / (prog.total_tasks : ℚ) * 100 :=
  ⟨by decide,
   (C9_completion_percentage { workflows := [⟨"w1", "wf", "active"⟩] } none
      ⟨"inactive", []⟩).1⟩

/-- C10: with no workflow in status `active` or `paused` the store-backed
checker reports completion with reason `No active workflow found`, and a
remote view whose status is `inactive` makes the API-backed checker
report completion with reason `No active workflow`. -/
theorem C10_absent_workflow_reported_complete (store : Store)
    (info : WorkflowInfo)
    (hdb : ∀ w ∈ store.workflows, w.status ≠ "active" ∧ w.status ≠ "paused")
    (hapi : info.status = "inactive") :
    (check_workflow_completion_via_db store none).complete = true ∧
    (check_workflow_completion_via_db store none).reason =
      "No active workflow found" ∧
    (check_workflow_completion_via_api info).complete = true ∧
    (check_workflow_completion_via_api info).reason = "No active workflow" := by
  have hfw : findWorkflow store.workflows none = none := by
    simp only [findWorkflow]
    rw [List.find?_eq_none]
    intro w hw
    simp [ (hdb w hw).1, (hdb w hw).2 ]
  have hdbres : check_workflow_completion_via_db store none =
      { complete := true, reason := "No active workflow found" } := by
    unfold check_workflow_completion_via_db
    rw [hfw]
  have hapires : check_workflow_completion_via_api info =
      { complete := true, reason := "No active workflow" } := by
    unfold check_workflow_completion_via_api
    simp [hapi]
  rw [hdbres, hapires]
  exact ⟨rfl, rfl, rfl, rfl⟩

/-- Witness for C10: an empty store and an `inactive` remote view. -/
theorem C10_absent_workflow_reported_complete_witness :
    (check_workflow_completion_via_db {} none).complete = true ∧
    (check_workflow_completion_via_db {} none).reason =
      "No active workflow found" ∧
    (check_workflow_completion_via_api ⟨"inactive", []⟩).complete = true ∧
    (check_workflow_completion_via_api ⟨"inactive", []⟩).reason =
      "No active workflow" :=
  C10_absent_workflow_reported_complete {} ⟨"inactive", []⟩
    (by intro w hw; simp at hw) rfl

/-- C2 counterexample: the API-backed checker never consults
WorkflowResult. With a remote view in status `active` showing one phase
of ten pending tasks, and a store holding a validated result for the
workflow, the spec's three-signal rule says complete while the API-backed
verdict is false. -/
theorem C2_counterexample_api_ignores_validated_result :
    (check_workflow_completion_via_api ⟨"active", [⟨10, 0, 0, 10⟩]⟩).complete = false ∧
    (findValidatedResult [⟨"r1", "w1", "validated", none⟩] "w1").isSome = true ∧
    specWorkflowComplete "active"
        (findValidatedResult [⟨"r1", "w1", "validated", none⟩] "w1").isSome
        1 (([⟨10, 0, 0, 10⟩] : List ApiPhase).all apiPhaseComplete) = true ∧
    (check_workflow_completion_via_api ⟨"active", [⟨10, 0, 0, 10⟩]⟩).complete ≠
      specWorkflowComplete "active"
        (findValidatedResult [⟨"r1", "w1", "validated", none⟩] "w1").isSome
        1 (([⟨10, 0, 0, 10⟩] : List ApiPhase).all apiPhaseComplete) := by
  decide

/-- C2 amended: for the store view, once a workflow is found, the
verdict is true exactly when one of the three signals holds, and the
diagnostic reason reflects the first true signal; the API view evaluates
only signals 1 and 3 — its verdict is true exactly when the reported
status is `inactive` or `completed`, or every reported phase is complete
and at least one phase exists. -/
theorem C2_amended_three_signals (store : Store) (wid : Option String)
    (w : Workflow) (info : WorkflowInfo)
    (hw : findWorkflow store.workflows wid = some w) :
    ((check_workflow_completion_via_db store wid).complete = true ↔
      (w.status = "completed" ∨
       (∃ r ∈ store.results, r.workflow_id = w.id ∧ r.status = "validated") ∨
       ((∃ p ∈ store.phases, p.workflow_id = w.id) ∧
        ∀ p ∈ store.phases, p.workflow_id = w.id →
          (phaseStatusOf store.tasks p).complete = true))) ∧
    ((check_workflow_completion_via_api info).complete = true ↔
      (info.status = "inactive" ∨ info.status = "completed" ∨
       (info.phases ≠ [] ∧ ∀ p ∈ info.phases, apiPhaseComplete p = true))) ∧
    (w.status = "completed" →
      (check_workflow_completion_via_db store wid).reason =
        "Workflow marked as completed") ∧
    (w.status ≠ "completed" →
      (∃ r ∈ store.results, r.workflow_id = w.id ∧ r.status = "validated") →
      (check_workflow_completion_via_db store wid).reason =
        "Workflow has validated result") ∧
    (w.status ≠ "completed" →
      (∀ r ∈ store.results, ¬(r.workflow_id = w.id ∧ r.status = "validated")) →
      (check_workflow_completion_via_db store wid).complete = true →
      (check_workflow_completion_via_db store wid).reason =
        "All phases complete (all tasks done)") := by
  have heq := check_db_found store wid w hw
  have hphases : ∀ ps : List Phase,
      ((ps.map (phaseStatusOf store.tasks)).all (·.complete) = true ↔
        ∀ p ∈ ps, (phaseStatusOf store.tasks p).complete = true) := by
    intro ps
    simp [List.all_eq_true]
  refine ⟨?_, ?_, ?_, ?_, ?_⟩
  · rw [heq]
    by_cases hc : w.status = "completed"
    · simp [hc]
    · rw [if_neg (by simp [hc])]
      rcases hval : findValidatedResult store.results w.id with _ | r
      · have hnoval : ¬∃ r ∈ store.results, r.workflow_id = w.id ∧
            r.status = "validated" := by
          rw [← findValidatedResult_some_iff]
          simp [hval]
        simp only []
        constructor
        · intro hcomp
          by_cases hall : (((phasesOf store.phases w.id).map
              (phaseStatusOf store.tasks)).all (·.complete) &&
                decide ((phasesOf store.phases w.id).length > 0)) = true
          · right; right
            have h1 := (Bool.and_eq_true _ _).mp hall
            have hmem := (hphases (phasesOf store.phases w.id)).mp h1.1
            have hlen : 0 < (phasesOf store.phases w.id).length :=
              of_decide_eq_true h1.2
            rcases List.exists_mem_of_length_pos hlen with ⟨p, hp⟩
            refine ⟨⟨p, (mem_phasesOf store.phases w.id p).mp hp⟩, ?_⟩
            intro q hq hqw
            exact hmem q ((mem_phasesOf store.phases w.id q).mpr ⟨hq, hqw⟩)
          · rw [if_neg hall] at hcomp
            simp at hcomp
        · intro hsig
          rcases hsig with hsig | hsig | hsig
          · exact absurd hsig hc
          · exact absurd hsig hnoval
          · rcases hsig with ⟨⟨p, hp, hpw⟩, hall⟩
            have h1 : ((phasesOf store.phases w.id).map
                (phaseStatusOf store.tasks)).all (·.complete) = true := by
              rw [hphases]
              intro q hq
              rcases (mem_phasesOf store.phases w.id q).mp hq with ⟨hq1, hq2⟩
              exact hall q hq1 hq2
            have h2 : 0 < (phasesOf store.phases w.id).length :=
              List.length_pos_of_mem ((mem_phasesOf store.phases w.id p).mpr ⟨hp, hpw⟩)
            rw [if_pos (by simp [h1, h2])]
      · have hex : ∃ s ∈ store.results, s.workflow_id = w.id ∧
            s.status = "validated" := by
          rw [← findValidatedResult_some_iff]
          simp [hval]
        simp [hex]
  · unfold check_workflow_completion_via_api
    by_cases hi : info.status = "inactive"
    · simp [hi]
    · rw [if_neg (by simp [hi])]
      by_cases hc : info.status = "completed"
      · simp [hi, hc]
      · rw [if_neg (by simp [hc])]
        simp only []
        by_cases hall : (info.phases.all apiPhaseComplete &&
            decide (info.phases.length > 0)) = true
        · rw [if_pos hall]
          have h1 := (Bool.and_eq_true _ _).mp hall
          have hlen : 0 < info.phases.length := of_decide_eq_true h1.2
          simp only [List.all_eq_true] at h1
          exact ⟨fun _ => Or.inr (Or.inr
            ⟨List.ne_nil_of_length_pos hlen, h1.1⟩), fun _ => rfl⟩
        · rw [if_neg hall]
          simp only [Bool.and_eq_true, not_and, List.all_eq_true] at hall
          constructor
          · intro hfalse
            simp at hfalse
          · intro hsig
            rcases hsig with hsig | hsig | hsig
            · exact absurd hsig hi
            · exact absurd hsig hc
            · rcases hsig with ⟨hne, hallp⟩
              exfalso
              have hlen : 0 < info.phases.length := List.length_pos_of_ne_nil hne
              have := hall (by simpa [List.all_eq_true] using hallp)
              simp [hlen] at this
  · intro hc
    rw [heq, if_pos (by simp [hc])]
  · intro hc hex
    rw [heq, if_neg (by simp [hc])]
    rcases hval : findValidatedResult store.results w.id with _ | r
    · exfalso
      rw [← findValidatedResult_some_iff] at hex
      simp [hval] at hex
    · rfl
  · intro hc hnoval hcomp
    have hvalnone : findValidatedResult store.results w.id = none := by
      rcases hv : findValidatedResult store.results w.id with _ | r
      · rfl
      · exfalso
        have hex : ∃ s ∈ store.results, s.workflow_id = w.id ∧
            s.status = "validated" := by
          rw [← findValidatedResult_some_iff]
          simp [hv]
        rcases hex with ⟨s, hs, hs1, hs2⟩
        exact hnoval s hs ⟨hs1, hs2⟩
    rw [heq, if_neg (by simp [hc]), hvalnone] at hcomp ⊢
    simp only [] at hcomp ⊢
    by_cases hall : (((phasesOf store.phases w.id).map
        (phaseStatusOf store.tasks)).all (·.complete) &&
          decide ((phasesOf store.phases w.id).length > 0)) = true
    · rw [if_pos hall]
    · rw [if_neg hall] at hcomp
      simp at hcomp

/-- Witness for the amended C2: a store holding an active workflow with
a validated result and ten pending tasks is judged complete by the
store-backed checker. -/
theorem C2_amended_three_signals_witness :
    (check_workflow_completion_via_db
        { workflows := [⟨"w1", "wf", "active"⟩]
          phases := [⟨"p1", "w1", 0, "phase"⟩]
          tasks := [⟨"t1", "p1", "pending", none, none, none, none⟩]
          results := [⟨"r1", "w1", "validated", none⟩] } none).complete = true :=
  (C2_amended_three_signals
      { workflows := [⟨"w1", "wf", "active"⟩]
        phases := [⟨"p1", "w1", 0, "phase"⟩]
        tasks := [⟨"t1", "p1", "pending", none, none, none, none⟩]
        results := [⟨"r1", "w1", "validated", none⟩] } none
      ⟨"w1", "wf", "active"⟩ ⟨"inactive", []⟩ (by decide)).1.mpr
    (Or.inr (Or.inl ⟨⟨"r1", "w1", "validated", none⟩, by decide, rfl, rfl⟩))

/-- C4: the failed-task reset selects exactly the `failed` tasks, resets
each one to `queued` with the failure bookkeeping cleared, and commits the
batch as one transaction before any enqueue: on commit failure the store
is unchanged (every selected task still `failed`, none `queued`) and no
enqueue outcome exists; on commit success the per-task enqueue outcomes
cover exactly the selected task ids and never roll the reset back. -/
theorem C4_failed_task_reset_atomic (tasks : List Task)
    (enq enq2 : String → Bool) :
    (restart_failed_tasks false enq tasks = (tasks, [])) ∧
    ((restart_failed_tasks true enq tasks).1 =
      tasks.map (fun t => if t.status == "failed" then resetTask t else t)) ∧
    (((restart_failed_tasks true enq tasks).2).map (·.task_id) =
      (tasks.filter (fun t => t.status == "failed")).map (·.id)) ∧
    ((restart_failed_tasks true enq tasks).1 =
      (restart_failed_tasks true enq2 tasks).1) ∧
    (∀ t, (resetTask t).status = "queued" ∧ (resetTask t).failure_reason = none ∧
      (resetTask t).assigned_agent_id = none ∧ (resetTask t).started_at = none ∧
      (resetTask t).completed_at = none) ∧
    (∀ t ∈ tasks, ¬(t.status = "failed") →
      t ∈ (restart_failed_tasks true enq tasks).1) := by
  have hmap : ∀ e : String → Bool, (restart_failed_tasks true e tasks).1 =
      tasks.map (fun t => if t.status == "failed" then resetTask t else t) := by
    intro e
    unfold restart_failed_tasks
    simp only []
    by_cases hemp : (tasks.filter (fun t => t.status == "failed")).isEmpty = true
    · rw [if_pos hemp]
      have hnone : ∀ t ∈ tasks, ¬(t.status == "failed") = true := by
        intro t ht hf
        have hmem : t ∈ tasks.filter (fun t => t.status == "failed") :=
          List.mem_filter.mpr ⟨ht, hf⟩
        rw [List.isEmpty_iff.mp hemp] at hmem
        simp at hmem
      calc tasks = tasks.map id := (List.map_id tasks).symm
        _ = tasks.map (fun t => if t.status == "failed" then resetTask t else t) :=
          List.map_congr_left (fun t ht => by simp [hnone t ht])
    · rw [if_neg hemp]
      simp
  refine ⟨?_, hmap enq, ?_, (hmap enq).trans (hmap enq2).symm, ?_, ?_⟩
  · unfold restart_failed_tasks
    simp only []
    by_cases hemp : (tasks.filter (fun t => t.status == "failed")).isEmpty = true
    · rw [if_pos hemp]
    · rw [if_neg hemp]
      simp
  · unfold restart_failed_tasks
    simp only []
    by_cases hemp : (tasks.filter (fun t => t.status == "failed")).isEmpty = true
    · rw [if_pos hemp]
      rw [List.isEmpty_iff.mp hemp]
      rfl
    · rw [if_neg hemp]
      simp [List.map_map, Function.comp]
  · intro t
    exact ⟨rfl, rfl, rfl, rfl, rfl⟩
  · intro t ht hnf
    rw [hmap enq]
    have : (fun t => if t.status == "failed" then resetTask t else t) t = t := by
      simp [hnf]
    exact this ▸ List.mem_map_of_mem _ ht

/-- Witness for C4 at a store of one failed and one done task with a
failing enqueue: commit failure keeps both tasks untouched, and commit
success resets the failed one while the enqueue failure is only
reported. -/
theorem C4_failed_task_reset_atomic_witness :
    (restart_failed_tasks false (fun _ => false)
        [⟨"t1", "p1", "failed", some "err", some "a1", some 1, some 2⟩,
         ⟨"t2", "p1", "done", none, none, none, none⟩] =
      ([⟨"t1", "p1", "failed", some "err", some "a1", some 1, some 2⟩,
        ⟨"t2", "p1", "done", none, none, none, none⟩], [])) ∧
    ((restart_failed_tasks true (fun _ => false)
        [⟨"t1", "p1", "failed", some "err", some "a1", some 1, some 2⟩,
         ⟨"t2", "p1", "done", none, none, none, none⟩]).1 =
      [⟨"t1", "p1", "queued", none, none, none, none⟩,
       ⟨"t2", "p1", "done", none, none, none, none⟩]) :=
  ⟨(C4_failed_task_reset_atomic
      [⟨"t1", "p1", "failed", some "err", some "a1", some 1, some 2⟩,
       ⟨"t2", "p1", "done", none, none, none, none⟩]
      (fun _ => false) (fun _ => false)).1,
   by
    rw [(C4_failed_task_reset_atomic
      [⟨"t1", "p1", "failed", some "err", some "a1", some 1, some 2⟩,
       ⟨"t2", "p1", "done", none, none, none, none⟩]
      (fun _ => false) (fun _ => false)).2.1]
    decide⟩

/-- Membership characterization of the stale-worktree report: an item is
reported exactly for the `active` records failing one of the two
external probes, annotated with the probe values and the owning agent's
status. -/
lemma mem_staleWorktrees (d g : String → Bool) (ags : List Agent)
    (wts : List AgentWorktree) (item : StaleItem) :
    item ∈ staleWorktrees d g ags wts ↔
      item.worktree ∈ wts ∧ item.worktree.merge_status = "active" ∧
      isStale d g item.worktree = true ∧
      item.exists_on_disk = d item.worktree.worktree_path ∧
      item.in_git_list = g item.worktree.worktree_path ∧
      item.agent_status = agentStatusOf ags item.worktree.agent_id := by
  obtain ⟨wt, eod, igl, ast⟩ := item
  simp only [staleWorktrees, List.mem_filterMap, List.mem_filter, isStale]
  constructor
  · rintro ⟨wt2, ⟨hwt2, hact⟩, hsome⟩
    by_cases hs : (!(d wt2.worktree_path) || !(g wt2.worktree_path)) = true
    · rw [if_pos hs] at hsome
      simp only [Option.some.injEq, StaleItem.mk.injEq] at hsome
      obtain ⟨h1, h2, h3, h4⟩ := hsome
      subst h1
      subst h2
      subst h3
      subst h4
      exact ⟨hwt2, by simpa using hact, hs, rfl, rfl, rfl⟩
    · rw [if_neg hs] at hsome
      simp at hsome
  · rintro ⟨hmem, hact, hstale, hd, hg, hstat⟩
    refine ⟨wt, ⟨hmem, by simp [hact]⟩, ?_⟩
    rw [if_pos hstale]
    simp only [Option.some.injEq, StaleItem.mk.injEq, true_and]
    exact ⟨hd.symm, hg.symm, hstat.symm⟩

/-- Execute mode's effect on the worktree table: exactly the active
stale records are relabelled `cleaned`. -/
lemma cleanup_execute_fst (d g : String → Bool) (ags : List Agent)
    (wts : List AgentWorktree) :
    (cleanup_stale_worktrees d g ags false wts).1 =
      wts.map (fun wt =>
        if wt.merge_status == "active" && isStale d g wt then
          { wt with merge_status := "cleaned" }
        else wt) := by
  unfold cleanup_stale_worktrees
  simp only []
  by_cases hemp : (staleWorktrees d g ags wts).isEmpty = true
  · rw [if_pos hemp]
    have hnone : ∀ wt ∈ wts,
        ¬((wt.merge_status == "active") && isStale d g wt) = true := by
      intro wt hwt hcond
      rw [Bool.and_eq_true] at hcond
      have hin : ({ worktree := wt, exists_on_disk := d wt.worktree_path,
                    in_git_list := g wt.worktree_path,
                    agent_status := agentStatusOf ags wt.agent_id } : StaleItem) ∈
          staleWorktrees d g ags wts := by
        rw [mem_staleWorktrees]
        exact ⟨hwt, by simpa using hcond.1, hcond.2, rfl, rfl, rfl⟩
      rw [List.isEmpty_iff.mp hemp] at hin
      simp at hin
    show wts = _
    calc wts = wts.map id := (List.map_id wts).symm
      _ = wts.map (fun wt =>
          if wt.merge_status == "active" && isStale d g wt then
            { wt with merge_status := "cleaned" }
          else wt) :=
        List.map_congr_left (fun wt hwt => by simp [hnone wt hwt])
  · rw [if_neg hemp]
    simp

/-- C5: running execute mode a second time directly after a first run
finds no stale record and mutates nothing — the second run returns the
first run's table unchanged, with an empty action list (even if the
agent table changed in between). -/
theorem C5_execute_mode_idempotent (d g : String → Bool)
    (ags ags2 : List Agent) (wts : List AgentWorktree) :
    cleanup_stale_worktrees d g ags2 false
        (cleanup_stale_worktrees d g ags false wts).1 =
      ((cleanup_stale_worktrees d g ags false wts).1, []) := by
  have h1 := cleanup_execute_fst d g ags wts
  set X := (cleanup_stale_worktrees d g ags false wts).1 with hX
  have hstale2 : staleWorktrees d g ags2 X = [] := by
    rw [h1]
    rw [List.eq_nil_iff_forall_not_mem]
    intro item hitem
    rw [mem_staleWorktrees] at hitem
    obtain ⟨hmem, hact, hstale, _, _, _⟩ := hitem
    rw [List.mem_map] at hmem
    obtain ⟨wt, hwt, hfwt⟩ := hmem
    by_cases hcond : ((wt.merge_status == "active") && isStale d g wt) = true
    · rw [if_pos hcond] at hfwt
      rw [← hfwt] at hact
      simp at hact
    · rw [if_neg hcond] at hfwt
      rw [← hfwt] at hact hstale
      have : ((wt.merge_status == "active") && isStale d g wt) = true := by
        rw [Bool.and_eq_true]
        exact ⟨by simpa using hact, hstale⟩
      exact hcond this
  have hempty : (staleWorktrees d g ags2 X).isEmpty = true := by
    rw [hstale2]
    rfl
  unfold cleanup_stale_worktrees
  simp only []
  rw [if_pos hempty]

/-- C6: the detector reports exactly the `active` worktree records
failing one of the two external probes, each annotated with both probe
values and the owning agent's status (or the `NOT_FOUND` sentinel when
no agent record carries the id). -/
theorem C6_staleness_detection (d g : String → Bool) (ags : List Agent)
    (wts : List AgentWorktree) :
    (∀ item ∈ staleWorktrees d g ags wts,
      item.worktree ∈ wts ∧ item.worktree.merge_status = "active" ∧
      (d item.worktree.worktree_path = false ∨
        g item.worktree.worktree_path = false) ∧
      item.exists_on_disk = d item.worktree.worktree_path ∧
      item.in_git_list = g item.worktree.worktree_path ∧
      item.agent_status = agentStatusOf ags item.worktree.agent_id) ∧
    (∀ wt ∈ wts, wt.merge_status = "active" →
      (d wt.worktree_path = false ∨ g wt.worktree_path = false) →
      ∃ item ∈ staleWorktrees d g ags wts, item.worktree = wt) ∧
    (∀ aid a, ags.find? (fun x => x.id == aid) = some a →
      agentStatusOf ags aid = a.status) ∧
    (∀ aid, (∀ a ∈ ags, a.id ≠ aid) →
      agentStatusOf ags aid = "NOT_FOUND") := by
  have hstale_iff : ∀ wt : AgentWorktree, isStale d g wt = true ↔
      (d wt.worktree_path = false ∨ g wt.worktree_path = false) := by
    intro wt
    simp [isStale]
  refine ⟨?_, ?_, ?_, ?_⟩
  · intro item hitem
    rw [mem_staleWorktrees] at hitem
    obtain ⟨hmem, hact, hstale, hd, hg, hstat⟩ := hitem
    exact ⟨hmem, hact, (hstale_iff _).mp hstale, hd, hg, hstat⟩
  · intro wt hwt hact hprobe
    refine ⟨{ worktree := wt, exists_on_disk := d wt.worktree_path,
              in_git_list := g wt.worktree_path,
              agent_status := agentStatusOf ags wt.agent_id }, ?_, rfl⟩
    rw [mem_staleWorktrees]
    exact ⟨hwt, hact, (hstale_iff _).mpr hprobe, rfl, rfl, rfl⟩
  · intro aid a hfind
    unfold agentStatusOf
    rw [hfind]
  · intro aid hnone
    unfold agentStatusOf
    have : ags.find? (fun x => x.id == aid) = none := by
      rw [List.find?_eq_none]
      intro a ha
      simp [hnone a ha]
    rw [this]

/-- Witness for C6: a stale record whose agent id has no agent row is
reported with the `NOT_FOUND` sentinel. -/
theorem C6_staleness_detection_witness :
    ∃ item ∈ staleWorktrees (fun _ => false) (fun _ => true) []
        [⟨"a7", "/tmp/wt-7", "agent-7", "active"⟩],
      item.worktree = ⟨"a7", "/tmp/wt-7", "agent-7", "active"⟩ :=
  (C6_staleness_detection (fun _ => false) (fun _ => true) []
      [⟨"a7", "/tmp/wt-7", "agent-7", "active"⟩]).2.1
    ⟨"a7", "/tmp/wt-7", "agent-7", "active"⟩ (by decide) rfl (Or.inl rfl)

/-- C7: with method `both` the reporter runs each checker once and emits
both verdicts unmodified, one entry per source; a disagreement between
the two verdicts is therefore exhibited in the output as two entries
with differing `complete` fields rather than being merged. -/
theorem C7_dual_source_reporting (info : WorkflowInfo) (store : Store)
    (wid : Option String) :
    mainResults info store wid "both" =
      [("api", check_workflow_completion_via_api info),
       ("db", check_workflow_completion_via_db store wid)] ∧
    ((check_workflow_completion_via_api info).complete ≠
        (check_workflow_completion_via_db store wid).complete →
      ∃ r1 r2, ("api", r1) ∈ mainResults info store wid "both" ∧
        ("db", r2) ∈ mainResults info store wid "both" ∧
        r1.complete ≠ r2.complete) := by
  have hmain : mainResults info store wid "both" =
      [("api", check_workflow_completion_via_api info),
       ("db", check_workflow_completion_via_db store wid)] := rfl
  refine ⟨hmain, ?_⟩
  intro hne
  refine ⟨check_workflow_completion_via_api info,
    check_workflow_completion_via_db store wid, ?_, ?_, hne⟩
  · rw [hmain]
    simp
  · rw [hmain]
    simp

/-- Witness for C7: an empty store (complete via the no-active-workflow
rule) against a remote view that is still in progress — the two
differing verdicts both appear in the output. -/
theorem C7_dual_source_reporting_witness :
    ∃ r1 r2, ("api", r1) ∈ mainResults ⟨"active", []⟩ {} none "both" ∧
      ("db", r2) ∈ mainResults ⟨"active", []⟩ {} none "both" ∧
      r1.complete ≠ r2.complete :=
  (C7_dual_source_reporting ⟨"active", []⟩ {} none).2 (by decide)

/-- C8: the stalled-agent restart selects exactly the agents with status
`working`, `running` or `stuck`; the task ids submitted for restart are
exactly the non-null `current_task_id` values of the selected agents,
collected before any termination effect is applied (so they do not
depend on it); `idle` and `terminated` agents are never selected. -/
theorem C8_stalled_agent_selection (t1 t2 : Agent → Agent)
    (agents : List Agent) :
    ((restart_stalled_agents t1 agents).2.terminated_agents =
      (agents.filter isStalledAgent).map (·.id)) ∧
    ((restart_stalled_agents t1 agents).2.restarted_tasks =
      (agents.filter isStalledAgent).filterMap (·.current_task_id)) ∧
    ((restart_stalled_agents t1 agents).2.restarted_tasks =
      (restart_stalled_agents t2 agents).2.restarted_tasks) ∧
    (∀ a ∈ agents, a.status = "idle" ∨ a.status = "terminated" →
      a ∉ agents.filter isStalledAgent) := by
  refine ⟨rfl, rfl, rfl, ?_⟩
  intro a _ hstat hmem
  rw [List.mem_filter] at hmem
  rcases hstat with h | h
  all_goals simp [isStalledAgent, h] at hmem

/-- Witness for C8: an idle agent alongside a working one is excluded
from the selection. -/
theorem C8_stalled_agent_selection_witness :
    (⟨"a1", "idle", some "t9"⟩ : Agent) ∉
      ([⟨"a1", "idle", some "t9"⟩, ⟨"a2", "working", some "t2"⟩] :
        List Agent).filter isStalledAgent :=
  (C8_stalled_agent_selection id id
      [⟨"a1", "idle", some "t9"⟩, ⟨"a2", "working", some "t2"⟩]).2.2.2
    ⟨"a1", "idle", some "t9"⟩ (by decide) (Or.inl rfl)

end Hephaestus
